import Mathlib

/-!
Verification of `salt/modules/mod_random.py` against its design spec.

The module's own code (`hash`, `str_encode`, `get_str`, `shadow_hash`,
`rand_int`, `seed`) is embedded below.  `get_str` and `shadow_hash` are thin
wrappers around `salt.utils.pycrypto.secure_password` / `gen_hash`, whose
bodies are not part of this source tree; those two are modelled from the
spec (see the doc comments).  External collaborators (hashlib, base64,
codecs, the `random` module's Mersenne Twister) are modelled abstractly as
parameters or explicit state.
-/

namespace ModRandom

/-- ASCII lowercase letters `a..z`, Python's `string.ascii_lowercase`. -/
def ascii_lowercase : List Char := (List.range 26).map (fun i => Char.ofNat (97 + i))

/-- ASCII uppercase letters `A..Z`, Python's `string.ascii_uppercase`. -/
def ascii_uppercase : List Char := (List.range 26).map (fun i => Char.ofNat (65 + i))

/-- ASCII digits `0..9`, Python's `string.digits`. -/
def ascii_digits : List Char := (List.range 10).map (fun i => Char.ofNat (48 + i))

/-- ASCII punctuation, Python's `string.punctuation`:
codes 33-47, 58-64, 91-96 and 123-126. -/
def ascii_punctuation : List Char :=
  (List.range 15).map (fun i => Char.ofNat (33 + i)) ++
  (List.range 7).map (fun i => Char.ofNat (58 + i)) ++
  (List.range 6).map (fun i => Char.ofNat (91 + i)) ++
  (List.range 4).map (fun i => Char.ofNat (123 + i))

/-- ASCII whitespace, Python's `string.whitespace`: space, tab, newline,
carriage return, vertical tab, form feed. -/
def ascii_whitespace : List Char :=
  [Char.ofNat 32, Char.ofNat 9, Char.ofNat 10, Char.ofNat 13, Char.ofNat 11, Char.ofNat 12]

/-- Configuration of `get_str` / `secure_password`: the optional explicit
character set and the six boolean class flags, in source order. -/
structure StrConfig where
  chars : Option (List Char)
  lowercase : Bool
  uppercase : Bool
  digits : Bool
  punctuation : Bool
  whitespace : Bool
  printable : Bool
deriving DecidableEq, Repr

/-- Modelled from the spec: the class-based character pool built by
`salt.utils.pycrypto.secure_password` (not under src/).  A class
contributes its characters when its flag is set or `printable` is set
(`printable` enables all five classes); classes are concatenated in the
canonical order lowercase, uppercase, digits, punctuation, whitespace. -/
def classPool (cfg : StrConfig) : List Char :=
  (if cfg.lowercase || cfg.printable then ascii_lowercase else []) ++
  (if cfg.uppercase || cfg.printable then ascii_uppercase else []) ++
  (if cfg.digits || cfg.printable then ascii_digits else []) ++
  (if cfg.punctuation || cfg.printable then ascii_punctuation else []) ++
  (if cfg.whitespace || cfg.printable then ascii_whitespace else [])

/-- Modelled from the spec: the complete character pool of
`salt.utils.pycrypto.secure_password` (not under src/).  A provided,
non-empty `chars` replaces the class-based pool verbatim (duplicates
preserved, no flag consulted); otherwise the class pool is used. -/
def buildPool (cfg : StrConfig) : List Char :=
  match cfg.chars with
  | some cs => if cs = [] then classPool cfg else cs
  | none => classPool cfg

/-- Failure mode of random-string generation: the configured pool is empty. -/
inductive ConfigError
  | emptyPool
deriving DecidableEq, Repr

/-- Modelled from the spec: `length` independent draws from `pool`.  The
secure random source (an external collaborator returning a uniform index
in `[0, pool_size)` per draw) is modelled as a function `r` giving the raw
entropy of the i-th draw, reduced mod the pool size. -/
def draw (r : Nat → Nat) (len : Nat) (pool : List Char) : List Char :=
  if h : pool.length = 0 then []
  else (List.range len).map
    (fun i => pool.get ⟨r i % pool.length, Nat.mod_lt _ (Nat.pos_of_ne_zero h)⟩)

/-- Modelled from the spec: `salt.utils.pycrypto.secure_password` (not under
src/).  Builds the pool from the configuration, fails with a configuration
error when the pool is empty, otherwise returns `length` independent draws
from the pool. -/
def secure_password (r : Nat → Nat) (length : Nat) (cfg : StrConfig) :
    Except ConfigError (List Char) :=
  let pool := buildPool cfg
  if pool = [] then Except.error ConfigError.emptyPool
  else Except.ok (draw r length pool)

/-- `random.get_str`: forwards all arguments to `secure_password`. -/
def get_str (r : Nat → Nat) (length : Nat) (cfg : StrConfig) :
    Except ConfigError (List Char) :=
  secure_password r length cfg

/-- The source's default configuration of `get_str`: no `chars`,
lowercase, uppercase, digits, punctuation on; whitespace, printable off. -/
def defaultConfig : StrConfig :=
  ⟨none, true, true, true, true, false, false⟩

/-- Failure mode of shadow-hash generation. -/
inductive CryptError
  | unsupportedAlgorithm
deriving DecidableEq, Repr

/-- Modelled from the spec: the crypt primitive collaborator
(`CryptPrimitive`, §6): the identifiers it knows, the salt length each
scheme requires, and the formatted-hash constructor. -/
structure CryptPrimitive where
  known : List String
  saltLen : String → Nat
  fmt : String → String → String → String

/-- Modelled from the spec: `format_hash(algorithm_id, salt, secret)` of
the crypt primitive, failing with an unsupported-algorithm error for
identifiers outside its known set. -/
def format_hash (cp : CryptPrimitive) (alg salt secret : String) :
    Except CryptError String :=
  if alg ∈ cp.known then Except.ok (cp.fmt alg salt secret)
  else Except.error CryptError.unsupportedAlgorithm

/-- Modelled from the spec: the alphanumeric-plus-dot-slash pool used to
generate a salt when none is supplied. -/
def saltChars : List Char :=
  ascii_lowercase ++ ascii_uppercase ++ ascii_digits ++ [Char.ofNat 46, Char.ofNat 47]

/-- Modelled from the spec: `salt.utils.pycrypto.gen_hash` (not under
src/).  A missing salt is generated from `saltChars` at the scheme's salt
length, a missing password from the password-safe default profile at the
default length 20; the crypt primitive's result is returned unchanged. -/
def gen_hash (cp : CryptPrimitive) (r : Nat → Nat) (crypt_salt : Option String)
    (password : Option String) (algorithm : String) : Except CryptError String :=
  format_hash cp algorithm
    (match crypt_salt with
     | some s => s
     | none => String.mk (draw r (cp.saltLen algorithm) saltChars))
    (match password with
     | some p => p
     | none => String.mk (draw r 20 (buildPool defaultConfig)))

/-- `random.shadow_hash`: forwards its three arguments to `gen_hash`. -/
def shadow_hash (cp : CryptPrimitive) (r : Nat → Nat) (crypt_salt : Option String)
    (password : Option String) (algorithm : String) : Except CryptError String :=
  gen_hash cp r crypt_salt password algorithm

/-- Python's `hashlib.algorithms_guaranteed` (external collaborator):
the digest names guaranteed on every Python 3 build. -/
def algorithms_guaranteed : List String :=
  ["md5", "sha1", "sha224", "sha256", "sha384", "sha512",
   "blake2b", "blake2s",
   "sha3_224", "sha3_256", "sha3_384", "sha3_512",
   "shake_128", "shake_256"]

/-- Attributes of Python's `hashlib` module (external collaborator): the
guaranteed digest constructors plus the module-level helpers, which
`hasattr(hashlib, algorithm)` also accepts. -/
def hashlib_attrs : List String :=
  algorithms_guaranteed ++
  ["new", "pbkdf2_hmac", "scrypt", "algorithms_guaranteed", "algorithms_available"]

/-- Result of `random.hash`: a hex digest, the module's own
`SaltInvocationError`, or a `ValueError` escaping from `hashlib.new`. -/
inductive HashResult
  | ok (hex : String)
  | saltInvocationError
  | valueError
deriving DecidableEq, Repr

/-- `random.hash(value, algorithm)` over the already byte-encoded `value`.
`d` is the abstract digest collaborator (name and bytes to hex digest);
`extra` lists the platform's extra `hashlib.algorithms_available` names
beyond the guaranteed ones.  Branches follow the source: names in
`algorithms_guaranteed` are hashed; otherwise a name that is a `hashlib`
attribute is passed to `hashlib.new`, which raises `ValueError` when the
attribute is not an available digest; otherwise `SaltInvocationError`. -/
def hash (d : String → List Nat → String) (extra : List String)
    (value : List Nat) (algorithm : String) : HashResult :=
  if algorithm ∈ algorithms_guaranteed then HashResult.ok (d algorithm value)
  else if algorithm ∈ hashlib_attrs then
    (if algorithm ∈ algorithms_guaranteed ++ extra then HashResult.ok (d algorithm value)
     else HashResult.valueError)
  else HashResult.saltInvocationError

/-- Result of `random.str_encode`: the encoded string, or one of the two
`SaltInvocationError` messages of the source (`You must specify a valid
encoder` and `Value must be an encode-able string`). -/
inductive EncodeResult
  | ok (s : String)
  | invalidEncoder
  | unencodableValue
deriving DecidableEq, Repr

/-- `random.str_encode(value, encoder)` for a string `value`.  `sysEncode`
is the abstract system-encoding collaborator (string to bytes), `b64` the
abstract base64 collaborator (bytes to base64 text).  The source first
turns the string into bytes; the base64 branch succeeds on any bytes.  In
every other branch it calls `value.encode(encoder)` on that bytes object,
and Python 3 bytes have no `encode` attribute, so the `AttributeError`
handler fires and the value-not-encodable error is raised: the codec named
by `encoder` is never consulted and `invalidEncoder` is unreachable. -/
def str_encode (sysEncode : String → List Nat) (b64 : List Nat → String)
    (value : String) (encoder : String) : EncodeResult :=
  let bytes := sysEncode value
  if encoder = "base64" then EncodeResult.ok (b64 bytes)
  else EncodeResult.unencodableValue

/-- The `random` module collaborator (Python's global Mersenne Twister),
modelled abstractly: `seedFn` maps a seed to the reset generator state
(discarding the prior state, as `random.seed` does), `nextFn` performs one
raw draw, returning the raw value and the successor state. -/
structure PyRandom where
  seedFn : Nat → Nat
  nextFn : Nat → Nat × Nat

/-- `random.randint(a, b)` on explicit state: one raw draw reduced to the
inclusive range `[a, b]` (defined for `a ≤ b`; Python raises otherwise). -/
def randint (R : PyRandom) (a b : Int) (st : Nat) : Int × Nat :=
  (a + (((R.nextFn st).1 % (b - a + 1).toNat : Nat) : Int), (R.nextFn st).2)

/-- `random.randrange(stop)` on explicit state: one raw draw reduced to
`[0, stop)`. -/
def randrange (R : PyRandom) (stop : Int) (st : Nat) : Int × Nat :=
  ((((R.nextFn st).1 % stop.toNat : Nat) : Int), (R.nextFn st).2)

/-- `random.rand_int(start, end, seed)`: when `sd` is present the shared
global state is reseeded from it (the incoming state `st` is discarded),
then one `randint` draw is taken from that same global state. -/
def rand_int (R : PyRandom) (start stop : Int) (sd : Option Nat) (st : Nat) :
    Int × Nat :=
  randint R start stop
    (match sd with
     | some s => R.seedFn s
     | none => st)

/-- `random.seed(range, hash)`: reseeds the shared global state from the
supplied hashable (or the minion id when absent) — the incoming state is
always discarded — then draws one `randrange` value. -/
def seed (R : PyRandom) (stop : Int) (hashArg : Option Nat) (minionId : Nat)
    (_st : Nat) : Int × Nat :=
  randrange R stop
    (R.seedFn
      (match hashArg with
       | some h => h
       | none => minionId))

/-- A concrete deterministic instance of the PRNG collaborator, used to
instantiate theorems at concrete inputs. -/
def testPRNG : PyRandom :=
  ⟨fun s => s, fun st => (st, st + 1)⟩

theorem draw_length (r : Nat → Nat) (len : Nat) (pool : List Char)
    (h : pool.length ≠ 0) : (draw r len pool).length = len := by
  simp [draw, h]

theorem draw_mem (r : Nat → Nat) (len : Nat) (pool : List Char)
    (h : pool.length ≠ 0) : ∀ c ∈ draw r len pool, c ∈ pool := by
  intro c hc
  simp only [draw, dif_neg h, List.mem_map, List.mem_range] at hc
  obtain ⟨i, _, hi⟩ := hc
  exact hi ▸ pool.get_mem _ _

theorem draw_zero (r : Nat → Nat) (pool : List Char) : draw r 0 pool = [] := by
  by_cases h : pool.length = 0 <;> simp [draw, h]

theorem classPool_eq_nil_iff (cfg : StrConfig) :
    classPool cfg = [] ↔
      (cfg.lowercase = false ∧ cfg.uppercase = false ∧ cfg.digits = false ∧
       cfg.punctuation = false ∧ cfg.whitespace = false ∧ cfg.printable = false) := by
  obtain ⟨cs, l, u, d, p, w, pr⟩ := cfg
  cases l <;> cases u <;> cases d <;> cases p <;> cases w <;> cases pr <;>
    simp [classPool] <;> decide

theorem buildPool_eq_nil_iff (cfg : StrConfig) :
    buildPool cfg = [] ↔
      ((cfg.chars = none ∨ cfg.chars = some []) ∧ classPool cfg = []) := by
  unfold buildPool
  rcases h : cfg.chars with _ | cs
  · simp
  · by_cases hcs : cs = [] <;> simp [hcs]

/-- C1: for every length and every configuration whose character pool is
non-empty, `get_str` succeeds with an output of exactly `length`
characters, each a member of the pool; length 0 yields the empty string. -/
theorem get_str_length_and_membership (r : Nat → Nat) (len : Nat) (cfg : StrConfig)
    (h : buildPool cfg ≠ []) :
    ∃ out, get_str r len cfg = Except.ok out ∧ out.length = len ∧
      (∀ c ∈ out, c ∈ buildPool cfg) ∧ (len = 0 → out = []) := by
  have hl : (buildPool cfg).length ≠ 0 := by
    simpa [List.length_eq_zero] using h
  refine ⟨draw r len (buildPool cfg), ?_, draw_length r len _ hl,
    draw_mem r len _ hl, ?_⟩
  · simp [get_str, secure_password, h]
  · rintro rfl
    exact draw_zero r _

/-- Witness for C1 at the default configuration, length 3. -/
theorem get_str_length_and_membership_witness :
    buildPool defaultConfig ≠ [] ∧
    ∃ out, get_str (fun i => i) 3 defaultConfig = Except.ok out ∧ out.length = 3 ∧
      (∀ c ∈ out, c ∈ buildPool defaultConfig) ∧ (3 = 0 → out = []) :=
  ⟨by decide, get_str_length_and_membership (fun i => i) 3 defaultConfig (by decide)⟩

/-- C2: `get_str` fails exactly when the pool is empty, which happens
exactly when no `chars` value is supplied (absent or empty) and all six
flags — the five classes and `printable` — are false; the length plays no
role, and failure produces no output. -/
theorem get_str_error_iff_empty_pool (r : Nat → Nat) (len : Nat) (cfg : StrConfig) :
    ((∃ e, get_str r len cfg = Except.error e) ↔ buildPool cfg = []) ∧
    (buildPool cfg = [] ↔
      ((cfg.chars = none ∨ cfg.chars = some []) ∧ cfg.lowercase = false ∧
       cfg.uppercase = false ∧ cfg.digits = false ∧ cfg.punctuation = false ∧
       cfg.whitespace = false ∧ cfg.printable = false)) := by
  constructor
  · constructor
    · rintro ⟨e, he⟩
      by_cases hp : buildPool cfg = []
      · exact hp
      · simp [get_str, secure_password, hp] at he
    · intro hp
      exact ⟨ConfigError.emptyPool, by simp [get_str, secure_password, hp]⟩
  · rw [buildPool_eq_nil_iff, classPool_eq_nil_iff]

/-- C3: a non-empty `chars` is the entire pool verbatim — no class flag is
consulted, duplicates are preserved — and every output character comes
from `chars`. -/
theorem get_str_chars_override (r : Nat → Nat) (len : Nat) (cfg : StrConfig)
    (cs : List Char) (h1 : cfg.chars = some cs) (h2 : cs ≠ []) :
    buildPool cfg = cs ∧
    ∃ out, get_str r len cfg = Except.ok out ∧ ∀ c ∈ out, c ∈ cs := by
  have hp : buildPool cfg = cs := by simp [buildPool, h1, h2]
  have hl : cs.length ≠ 0 := by simpa [List.length_eq_zero] using h2
  exact ⟨hp, draw r len cs,
    by simp [get_str, secure_password, hp, h2], draw_mem r len cs hl⟩

/-- Witness for C3: `chars` of three characters with duplicates-free
content and `lowercase` on, as in the spec's example. -/
theorem get_str_chars_override_witness :
    (⟨some [Char.ofNat 120, Char.ofNat 121, Char.ofNat 122],
       true, true, true, true, false, false⟩ : StrConfig).chars =
        some [Char.ofNat 120, Char.ofNat 121, Char.ofNat 122] ∧
    ([Char.ofNat 120, Char.ofNat 121, Char.ofNat 122] : List Char) ≠ [] ∧
    (buildPool ⟨some [Char.ofNat 120, Char.ofNat 121, Char.ofNat 122],
       true, true, true, true, false, false⟩ =
        [Char.ofNat 120, Char.ofNat 121, Char.ofNat 122] ∧
     ∃ out, get_str (fun i => i) 5
         ⟨some [Char.ofNat 120, Char.ofNat 121, Char.ofNat 122],
           true, true, true, true, false, false⟩ = Except.ok out ∧
       ∀ c ∈ out, c ∈ [Char.ofNat 120, Char.ofNat 121, Char.ofNat 122]) :=
  ⟨rfl, by decide,
    get_str_chars_override (fun i => i) 5 _ _ rfl (by decide)⟩

/-- C4: with `printable` set and no explicit `chars`, the pool's character
set is exactly the union of the lowercase, uppercase, digit, punctuation
and whitespace classes, whatever the five individual flags are. -/
theorem get_str_printable_pool (cfg : StrConfig) (c : Char)
    (h1 : cfg.printable = true) (h2 : cfg.chars = none ∨ cfg.chars = some []) :
    (c ∈ buildPool cfg ↔
      (c ∈ ascii_lowercase ∨ c ∈ ascii_uppercase ∨ c ∈ ascii_digits ∨
       c ∈ ascii_punctuation ∨ c ∈ ascii_whitespace)) := by
  have hb : buildPool cfg = classPool cfg := by
    rcases h2 with h | h <;> simp [buildPool, h]
  rw [hb]
  simp [classPool, h1, List.mem_append, or_assoc]

/-- Witness for C4: all five class flags off, `printable` on, at the
character `a`. -/
theorem get_str_printable_pool_witness :
    (Char.ofNat 97 ∈ buildPool ⟨none, false, false, false, false, false, true⟩ ↔
      (Char.ofNat 97 ∈ ascii_lowercase ∨ Char.ofNat 97 ∈ ascii_uppercase ∨
       Char.ofNat 97 ∈ ascii_digits ∨ Char.ofNat 97 ∈ ascii_punctuation ∨
       Char.ofNat 97 ∈ ascii_whitespace)) :=
  get_str_printable_pool _ (Char.ofNat 97) rfl (Or.inl rfl)

/-- C5: `shadow_hash` with both `crypt_salt` and `password` supplied is
deterministic in `(algorithm, crypt_salt, password)`: its result does not
depend on the random source at all, so any two calls agree. -/
theorem shadow_hash_deterministic (cp : CryptPrimitive) (r1 r2 : Nat → Nat)
    (s p algorithm : String) :
    shadow_hash cp r1 (some s) (some p) algorithm =
      shadow_hash cp r2 (some s) (some p) algorithm := rfl

/-- C6: `shadow_hash` returns the crypt primitive's result unchanged —
nothing is caught or suppressed — and it fails exactly when the algorithm
is outside the primitive's known identifiers. -/
theorem shadow_hash_error_propagation (cp : CryptPrimitive) (r : Nat → Nat)
    (s p algorithm : String) :
    shadow_hash cp r (some s) (some p) algorithm = format_hash cp algorithm s p ∧
    ((∃ e, shadow_hash cp r (some s) (some p) algorithm = Except.error e) ↔
      algorithm ∉ cp.known) := by
  refine ⟨rfl, ?_⟩
  by_cases hk : algorithm ∈ cp.known
  · simp [shadow_hash, gen_hash, format_hash, hk]
  · exact ⟨fun _ => hk, fun _ =>
      ⟨CryptError.unsupportedAlgorithm,
        by simp [shadow_hash, gen_hash, format_hash, hk]⟩⟩

/-- Witness for C6 at a concrete one-algorithm primitive. -/
theorem shadow_hash_error_propagation_witness :
    (shadow_hash ⟨["sha512"], fun _ => 8, fun _ _ _ => ""⟩ (fun i => i)
        (some "abcdefgh") (some "hunter2") "md5" =
      format_hash ⟨["sha512"], fun _ => 8, fun _ _ _ => ""⟩ "md5" "abcdefgh" "hunter2") ∧
    ((∃ e, shadow_hash ⟨["sha512"], fun _ => 8, fun _ _ _ => ""⟩ (fun i => i)
          (some "abcdefgh") (some "hunter2") "md5" = Except.error e) ↔
      "md5" ∉ (⟨["sha512"], fun _ => 8, fun _ _ _ => ""⟩ : CryptPrimitive).known) :=
  shadow_hash_error_propagation _ (fun i => i) "abcdefgh" "hunter2" "md5"

/-- C7 counterexample: at `algorithm = "new"` — not a recognized digest
name — `hash` does not raise `SaltInvocationError`: `hasattr(hashlib,
"new")` holds, so `hashlib.new("new")` is called and its `ValueError`
escapes, refuting the claimed equivalence at this input. -/
theorem hash_new_refutes_iff :
    ¬ ((hash (fun _ _ => "") [] [] "new" = HashResult.saltInvocationError) ↔
        "new" ∉ algorithms_guaranteed ++ ([] : List String)) := by
  decide

/-- C7 amended: `hash` raises `SaltInvocationError` exactly when the
algorithm is neither a guaranteed digest nor any `hashlib` attribute; on
guaranteed digest names it returns the hex digest; on `hashlib` attributes
that are not available digests the `ValueError` from `hashlib.new`
propagates instead. -/
theorem hash_error_dichotomy (d : String → List Nat → String) (extra : List String)
    (value : List Nat) (algorithm : String) :
    (hash d extra value algorithm = HashResult.saltInvocationError ↔
      algorithm ∉ hashlib_attrs) ∧
    (algorithm ∈ algorithms_guaranteed →
      hash d extra value algorithm = HashResult.ok (d algorithm value)) ∧
    (algorithm ∈ hashlib_attrs → algorithm ∉ algorithms_guaranteed ++ extra →
      hash d extra value algorithm = HashResult.valueError) := by
  refine ⟨?_, ?_, ?_⟩
  · by_cases h1 : algorithm ∈ algorithms_guaranteed
    · have h2 : algorithm ∈ hashlib_attrs := List.mem_append_left _ h1
      simp [hash, h1, h2]
    · by_cases h2 : algorithm ∈ hashlib_attrs
      · by_cases h3 : algorithm ∈ algorithms_guaranteed ++ extra <;>
          simp [hash, h1, h2, h3]
      · simp [hash, h1, h2]
  · intro h1
    simp [hash, h1]
  · intro h2 h3
    have h1 : algorithm ∉ algorithms_guaranteed :=
      fun h => h3 (List.mem_append_left _ h)
    simp [hash, h1, h2, h3]

/-- Witness for C7's amended theorem at `algorithm = "md5"`. -/
theorem hash_error_dichotomy_witness :
    (hash (fun _ _ => "z") [] [] "md5" = HashResult.saltInvocationError ↔
      "md5" ∉ hashlib_attrs) ∧
    ("md5" ∈ algorithms_guaranteed →
      hash (fun _ _ => "z") [] [] "md5" = HashResult.ok "z") ∧
    ("md5" ∈ hashlib_attrs → "md5" ∉ algorithms_guaranteed ++ ([] : List String) →
      hash (fun _ _ => "z") [] [] "md5" = HashResult.valueError) :=
  hash_error_dichotomy (fun _ _ => "z") [] [] "md5"

/-- C8: `str_encode` with any encoder other than `base64` returns the
value-not-encodable `SaltInvocationError` for every string value — in
particular for known codec names and plainly encodable values — because
the source calls `.encode(encoder)` on a Python 3 bytes object. -/
theorem str_encode_non_base64_always_fails (sysEncode : String → List Nat)
    (b64 : List Nat → String) (value : String) (encoder : String)
    (h : encoder ≠ "base64") :
    str_encode sysEncode b64 value encoder = EncodeResult.unencodableValue := by
  simp [str_encode, h]

/-- Witness for C8 at the failing input: a plain ASCII value and the
well-known `utf-8` codec. -/
theorem str_encode_non_base64_always_fails_witness :
    ("utf-8" ≠ "base64") ∧
    str_encode (fun _ => []) (fun _ => "") "hello" "utf-8" =
      EncodeResult.unencodableValue :=
  ⟨by decide,
    str_encode_non_base64_always_fails (fun _ => []) (fun _ => "") "hello" "utf-8"
      (by decide)⟩

/-- C9: a seeded `rand_int` call is reproducible — the prior state of the
generator is irrelevant, any two calls with the same seed agree — and its
result lies in the inclusive range whenever `start ≤ end`. -/
theorem rand_int_seeded_reproducible (R : PyRandom) (s : Nat) (a b : Int)
    (st1 st2 : Nat) (h : a ≤ b) :
    (rand_int R a b (some s) st1).1 = (rand_int R a b (some s) st2).1 ∧
    a ≤ (rand_int R a b (some s) st1).1 ∧ (rand_int R a b (some s) st1).1 ≤ b := by
  have hx : (R.nextFn (R.seedFn s)).1 % (b - a + 1).toNat < (b - a + 1).toNat :=
    Nat.mod_lt _ (by omega)
  refine ⟨rfl, ?_, ?_⟩ <;>
    simp only [rand_int, randint] <;> omega

/-- Witness for C9: the concrete test generator, seed 5, range 1 to 10,
from two different prior states. -/
theorem rand_int_seeded_reproducible_witness :
    ((1 : Int) ≤ 10) ∧
    ((rand_int testPRNG 1 10 (some 5) 0).1 = (rand_int testPRNG 1 10 (some 5) 99).1 ∧
     1 ≤ (rand_int testPRNG 1 10 (some 5) 0).1 ∧
     (rand_int testPRNG 1 10 (some 5) 0).1 ≤ 10) :=
  ⟨by decide, rand_int_seeded_reproducible testPRNG 5 1 10 0 99 (by decide)⟩

/-- C10: seeded draws and `seed` reseed the one shared global state: after
`rand_int` with seed `s` (or after `seed`), the state — and hence the next
unseeded `rand_int` result — is fully determined by the seed, independent
of whatever the global state was before. -/
theorem rand_int_shares_global_state (R : PyRandom) (s mid : Nat)
    (a b a2 b2 rg : Int) (st1 st2 : Nat) :
    ((rand_int R a2 b2 none (rand_int R a b (some s) st1).2).1 =
      (rand_int R a2 b2 none (rand_int R a b (some s) st2).2).1) ∧
    ((rand_int R a2 b2 none (seed R rg (some s) mid st1).2).1 =
      (rand_int R a2 b2 none (seed R rg (some s) mid st2).2).1) :=
  ⟨rfl, rfl⟩

end ModRandom
